import Mathlib

/-!
Verification development for the CloudNav backend (a bookmark manager whose
HTTP handlers read and write JSON blobs in a key-value store).

The definitions below are a shallow embedding of the TypeScript sources:

* `CloudNav.Storage` embeds the GET/POST handlers of `src/storage.ts` and
  `src/functions/api/storage.ts`.  The handler bodies of the two files are
  textually identical; they differ only in the key-value client they
  construct, so the handlers are embedded once, parameterised over the
  observable behaviour of the client (the `kv` read map, and whether a
  wrapper `put` call raises).  The bound-binding client of `src/storage.ts`
  is embedded separately (`boundPutRaises`, `boundLowerPut`), as is the
  remote-API client shared by `src/functions/api/storage.ts` and
  `src/functions/api/link.ts` (`RemoteClient.generateSignature`).
* `CloudNav.Link` embeds the link-insertion POST handler of
  `src/functions/api/link.ts` (all three handler variants in that file have
  the same handler body).

Conventions of the embedding:

* JavaScript string-or-null and string-or-undefined values are `Option
  String`; JavaScript truthiness of such a value is `truthy` (null,
  undefined and the empty string are falsy).  The strict equality
  `a !== b` between a string-or-null and a string-or-undefined value is
  false exactly when both are present and equal (`strictEqOpt`), since
  null, undefined and any string are pairwise distinct under strict
  equality.
* `Date.now()` is a single `now : Int` parameter per request: the clock is
  frozen for the duration of one handler invocation.
* `JSON.parse` of the stored `website_config` blob followed by the
  `.passwordExpiryDays` field access is abstracted as a parameter
  `parseField : String -> Option Int` (the field value when the blob is a
  JSON object carrying a number there, otherwise `none`); the surrounding
  defaulting logic (`|| 7`) is embedded concretely.  Requests whose stored
  blob is not parseable JSON (a 500 path) are outside the model.
* Effects on the store are reified: a handler returns, besides its
  response, the list of wrapper-level `put` calls it performed, in order.
-/

namespace CloudNav

/-- Truthiness of a JavaScript string-or-null/undefined value: null,
undefined and the empty string are falsy, every other string is truthy. -/
def truthy : Option String → Bool
  | none => false
  | some s => s != ""

/-- Strict equality between a string-or-null value (a header read) and a
string-or-undefined value (an environment variable): true exactly when both
are present and the strings are equal. -/
def strictEqOpt : Option String → Option String → Bool
  | some a, some b => a == b
  | _, _ => false

/-- JavaScript `x || d` for a string-or-null `x`: the string when present
and nonempty, otherwise the default. -/
def orDefault (v : Option String) (d : String) : String :=
  match v with
  | some s => if s == "" then d else s
  | none => d

/-- Whether a character list starts with the given pattern. -/
def startsWithChars : List Char → List Char → Bool
  | _, [] => true
  | [], _ :: _ => false
  | a :: as, p :: ps => a == p && startsWithChars as ps

/-- Whether a character list has the given pattern as a contiguous
sub-sequence. -/
def containsChars : List Char → List Char → Bool
  | [], p => p.isEmpty
  | s :: rest, p => startsWithChars (s :: rest) p || containsChars rest p

/-- Substring containment, modelling `String.prototype.includes`. -/
def strContains (s pat : String) : Bool :=
  containsChars s.data pat.data

/-- Lowercasing, modelling `String.prototype.toLowerCase`: ASCII letters
are lowered character by character; the inputs relevant here (ASCII and
Chinese category names and keywords) behave identically under the
JavaScript Unicode lowering. -/
def strLower (s : String) : String :=
  ⟨s.data.map Char.toLower⟩

/-- Value of a decimal digit character, if it is one. -/
def digitVal (c : Char) : Option Nat :=
  if 48 ≤ c.toNat ∧ c.toNat ≤ 57 then some (c.toNat - 48) else none

/-- Accumulating decimal parse of a character list; `none` on any
non-digit. -/
def natOfDigitsAux : List Char → Nat → Option Nat
  | [], acc => some acc
  | c :: cs, acc =>
    match digitVal c with
    | some d => natOfDigitsAux cs (acc * 10 + d)
    | none => none

/-- Integer parse of a string, modelling `parseInt` on the canonical
decimal strings this system writes (`Date.now().toString()`): all-digit
strings, with an optional leading minus.  A string that is not of this
shape parses to `none`, which the callers treat the way the source treats
NaN (every comparison false). -/
def parseIntStr (s : String) : Option Int :=
  match s.data with
  | [] => none
  | '-' :: cs =>
    match cs with
    | [] => none
    | _ => (natOfDigitsAux cs 0).map (fun n => -(n : Int))
  | cs => (natOfDigitsAux cs 0).map (fun n => (n : Int))

namespace Storage

/-- Response bodies produced by the storage GET handler. -/
inductive GetBody where
  /-- the checkAuth response `{ hasPassword, requiresAuth }` (both fields
  carry the same boolean) -/
  | authStatus (hasPassword : Bool)
  /-- a raw pass-through body: a stored blob or its literal default -/
  | blob (s : String)
  /-- the favicon cache-hit response `{ icon, cached: true }` -/
  | faviconHit (icon : String)
  /-- the favicon cache-miss response `{ icon: null, cached: false }` -/
  | faviconMiss
  /-- 400 response when the domain query parameter is missing -/
  | errDomainRequired
  /-- 401 response for a missing or wrong password header -/
  | errWrongPassword
  /-- 401 response when the stored authentication timestamp has expired -/
  | errExpired
  /-- the empty structure `{ links: [], categories: [] }` returned when no
  app data is stored -/
  | emptyData
  /-- 500 response from the surrounding catch block -/
  | errFetchFailed
  deriving DecidableEq

/-- Status code and body of a storage GET response. -/
structure GetResponse where
  status : Nat
  body : GetBody
  deriving DecidableEq

/-- A wrapper-level `put` call: key, value, and the `expirationTtl` option
passed to the key-value client (seconds), when any. -/
structure PutCall where
  key : String
  value : String
  ttl : Option Nat
  deriving DecidableEq

/-- Result of one storage GET invocation: the response and the wrapper
`put` calls performed. -/
structure GetResult where
  resp : GetResponse
  puts : List PutCall
  deriving DecidableEq

/-- Inputs of a storage GET request: the `checkAuth`, `getConfig` and
`domain` query parameters and the `x-auth-password` header. -/
structure GetRequest where
  checkAuth : Option String
  getConfig : Option String
  domain : Option String
  password : Option String
  deriving DecidableEq

/-- The literal default body for a missing website config,
`JSON.stringify(\x7b passwordExpiryDays: 7 \x7d)`. -/
def websiteDefault : String := "\x7b\"passwordExpiryDays\":7\x7d"

/-- The literal default body for a missing config blob. -/
def emptyObj : String := "\x7b\x7d"

/-- Effective password-expiry days, embedding
`websiteConfigStr ? JSON.parse(websiteConfigStr) : \x7b passwordExpiryDays: 7 \x7d`
followed by `.passwordExpiryDays || 7`: a missing or empty blob gives 7,
and a field value of 0 (falsy in JavaScript) is coerced to 7 by `||`. -/
def effectiveExpiryDays (parseField : String → Option Int) (blob : Option String) : Int :=
  match blob with
  | none => 7
  | some s =>
    if s == "" then 7
    else
      match parseField s with
      | some n => if n = 0 then 7 else n
      | none => 7

/-- Whether the expiry check of the authenticated app-data GET fires,
embedding: `if (passwordExpiryDays > 0)`, then read `last_auth_time`, `if
(lastAuthTime)`, `parseInt`, and `now - lastTime > expiryMs` with
`expiryMs = passwordExpiryDays * 24 * 60 * 60 * 1000`.  A stored timestamp
that does not parse as an integer behaves like NaN in the source: the
comparison is false and the check does not fire. -/
def expiryCheckFires (parseField : String → Option Int) (kv : String → Option String)
    (now : Int) : Bool :=
  let days := effectiveExpiryDays parseField (kv "website_config")
  if days > 0 then
    match kv "last_auth_time" with
    | none => false
    | some l =>
      if l == "" then false
      else
        match parseIntStr l with
        | some lastTime => decide (now - lastTime > days * (24 * 60 * 60 * 1000))
        | none => false
  else false

/-- Embedding of `onRequestGet` of `src/storage.ts` (lines 75 to 201) and
`src/functions/api/storage.ts` (lines 141 to 271); the two bodies are
identical.  `kv` is the wrapper-level read view of the store (the client
`get` returns null both for a missing key and for any client error),
`serverPassword` is `env.PASSWORD`, `now` is `Date.now()`, and `putRaises`
says whether the `put` of `last_auth_time` raises (always false for the
bound client of `src/storage.ts`, a fetch failure for the remote client of
`src/functions/api/storage.ts`, in which case the outer catch returns
500). -/
def onRequestGet (kv : String → Option String) (parseField : String → Option Int)
    (serverPassword : Option String) (now : Int) (putRaises : Bool)
    (req : GetRequest) : GetResult :=
  if req.checkAuth = some "true" then
    ⟨⟨200, .authStatus (truthy serverPassword)⟩, []⟩
  else if req.getConfig = some "ai" then
    ⟨⟨200, .blob (orDefault (kv "ai_config") emptyObj)⟩, []⟩
  else if req.getConfig = some "search" then
    ⟨⟨200, .blob (orDefault (kv "search_config") emptyObj)⟩, []⟩
  else if req.getConfig = some "website" then
    ⟨⟨200, .blob (orDefault (kv "website_config") websiteDefault)⟩, []⟩
  else if req.getConfig = some "favicon" then
    match req.domain with
    | none => ⟨⟨400, .errDomainRequired⟩, []⟩
    | some d =>
      if d == "" then ⟨⟨400, .errDomainRequired⟩, []⟩
      else
        match kv ("favicon:" ++ d) with
        | some icon =>
          if icon == "" then ⟨⟨200, .faviconMiss⟩, []⟩
          else ⟨⟨200, .faviconHit icon⟩, []⟩
        | none => ⟨⟨200, .faviconMiss⟩, []⟩
  else
    let data := kv "app_data"
    if req.getConfig = some "true" then
      if ¬ truthy req.password || ¬ strictEqOpt req.password serverPassword then
        ⟨⟨401, .errWrongPassword⟩, []⟩
      else if expiryCheckFires parseField kv now then
        ⟨⟨401, .errExpired⟩, []⟩
      else
        let writes : List PutCall := [⟨"last_auth_time", toString now, none⟩]
        if putRaises then ⟨⟨500, .errFetchFailed⟩, writes⟩
        else
          match data with
          | none => ⟨⟨200, .emptyData⟩, writes⟩
          | some d =>
            if d == "" then ⟨⟨200, .emptyData⟩, writes⟩
            else ⟨⟨200, .blob d⟩, writes⟩
    else
      match data with
      | none => ⟨⟨200, .emptyData⟩, []⟩
      | some d =>
        if d == "" then ⟨⟨200, .emptyData⟩, []⟩
        else ⟨⟨200, .blob d⟩, []⟩

/-- Parsed JSON body of a storage POST request.  `authOnly` is the
truthiness of `body.authOnly`; `saveConfig`, `domain` and `icon` are the
corresponding fields (absent as `none`); `configStr` stands for
`JSON.stringify(body.config)` and `selfStr` for `JSON.stringify(body)`. -/
structure PostBody where
  authOnly : Bool
  saveConfig : Option String
  domain : Option String
  icon : Option String
  configStr : String
  selfStr : String
  deriving DecidableEq

/-- Response bodies produced by the storage POST handler. -/
inductive PostRespBody where
  /-- `{ success: true }` -/
  | success
  /-- 401 `{ error: Unauthorized }` -/
  | unauthorized
  /-- 500 response when `env.PASSWORD` is not set -/
  | misconfigured
  /-- 400 response when the favicon branch lacks a domain or an icon -/
  | domainIconRequired
  /-- 500 response from the surrounding catch block -/
  | saveFailed
  deriving DecidableEq

/-- Status code and body of a storage POST response. -/
structure PostResponse where
  status : Nat
  body : PostRespBody
  deriving DecidableEq

/-- Result of one storage POST invocation: the response and the wrapper
`put` calls performed. -/
structure PostResult where
  resp : PostResponse
  puts : List PutCall
  deriving DecidableEq

/-- Embedding of `onRequestPost` of `src/storage.ts` (lines 204 to 320)
and `src/functions/api/storage.ts` (lines 274 to 394); the two bodies are
identical.  `putRaises` says whether a wrapper `put` call on this path
raises (always false for the bound client of `src/storage.ts`; a fetch
failure for the remote client), in which case the outer catch returns
500 after the call was made. -/
def onRequestPost (serverPassword provided : Option String) (now : Int)
    (putRaises : Bool) (b : PostBody) : PostResult :=
  if b.authOnly then
    if ¬ truthy serverPassword then
      ⟨⟨500, .misconfigured⟩, []⟩
    else if ¬ strictEqOpt provided serverPassword then
      ⟨⟨401, .unauthorized⟩, []⟩
    else
      let writes : List PutCall := [⟨"last_auth_time", toString now, none⟩]
      if putRaises then ⟨⟨500, .saveFailed⟩, writes⟩
      else ⟨⟨200, .success⟩, writes⟩
  else if b.saveConfig = some "search" then
    if truthy serverPassword ∧
        (¬ truthy provided ∨ ¬ strictEqOpt provided serverPassword) then
      ⟨⟨401, .unauthorized⟩, []⟩
    else
      let writes : List PutCall := [⟨"search_config", b.configStr, none⟩]
      if putRaises then ⟨⟨500, .saveFailed⟩, writes⟩
      else ⟨⟨200, .success⟩, writes⟩
  else if b.saveConfig = some "favicon" then
    if ¬ truthy b.domain ∨ ¬ truthy b.icon then
      ⟨⟨400, .domainIconRequired⟩, []⟩
    else
      let writes : List PutCall :=
        [⟨"favicon:" ++ (b.domain.getD ""), b.icon.getD "", some (30 * 24 * 60 * 60)⟩]
      if putRaises then ⟨⟨500, .saveFailed⟩, writes⟩
      else ⟨⟨200, .success⟩, writes⟩
  else if truthy serverPassword then
    if ¬ truthy provided ∨ ¬ strictEqOpt provided serverPassword then
      ⟨⟨401, .unauthorized⟩, []⟩
    else if b.saveConfig = some "ai" then
      let writes : List PutCall := [⟨"ai_config", b.configStr, none⟩]
      if putRaises then ⟨⟨500, .saveFailed⟩, writes⟩
      else ⟨⟨200, .success⟩, writes⟩
    else if b.saveConfig = some "website" then
      let writes : List PutCall := [⟨"website_config", b.configStr, none⟩]
      if putRaises then ⟨⟨500, .saveFailed⟩, writes⟩
      else ⟨⟨200, .success⟩, writes⟩
    else
      let writes : List PutCall := [⟨"app_data", b.selfStr, none⟩]
      if putRaises then ⟨⟨500, .saveFailed⟩, writes⟩
      else ⟨⟨200, .success⟩, writes⟩
  else
    ⟨⟨500, .misconfigured⟩, []⟩

/-- A call reaching the underlying bound key-value binding
(`kv.put(key, value)`), which carries no expiration option. -/
structure UnderlyingCall where
  key : String
  value : String
  ttl : Option Nat
  deriving DecidableEq

/-- Whether the `put` wrapper of the bound client of `src/storage.ts`
(lines 39 to 56) raises: it returns early when the binding is absent and
catches any error of the underlying `kv.put` without rethrowing, so it
never raises. -/
def boundPutRaises (isAvailable : Bool) (underlyingRaises : Bool) : Bool :=
  if ¬ isAvailable then false
  else if underlyingRaises then false
  else false

/-- The underlying calls produced by one wrapper `put` of the bound client
of `src/storage.ts`: nothing when the binding is absent, otherwise a single
`kv.put(key, value)` call — the `options` argument of the wrapper is never
forwarded, so the underlying call carries no expiration. -/
def boundLowerPut (isAvailable : Bool) (c : PutCall) : List UnderlyingCall :=
  if isAvailable then [⟨c.key, c.value, none⟩] else []

/-- The underlying calls produced by a sequence of wrapper `put` calls of
the bound client of `src/storage.ts`. -/
def boundUnderlying (isAvailable : Bool) (ps : List PutCall) : List UnderlyingCall :=
  (ps.map (boundLowerPut isAvailable)).flatten

end Storage

namespace RemoteClient

/-- Embedding of `EdgeOneKVClient.generateSignature` of
`src/functions/api/storage.ts` (lines 21 to 26) and the identical method of
`src/functions/api/link.ts` (lines 235 to 240): the body ignores every
argument and returns the raw API key. -/
def generateSignature (apiKey : String) (method : String) (url : String)
    (timestamp : Int) : String :=
  apiKey

end RemoteClient

namespace Link

/-- A stored category, `\x7b id, name \x7d`. -/
structure Category where
  id : String
  name : String
  deriving DecidableEq

/-- A stored link record.  `icon : Option String` with `none` standing for
the JavaScript `undefined` assigned by the handler. -/
structure LinkRec where
  id : String
  title : String
  url : String
  description : String
  categoryId : String
  createdAt : Int
  pinned : Bool
  icon : Option String
  deriving DecidableEq

/-- The app-data document: links plus categories.  The JSON round trip
through the store is abstracted: the handler receives the parsed document
(or `none` when the key is missing) and writes back a document. -/
structure AppData where
  links : List LinkRec
  categories : List Category
  deriving DecidableEq

/-- Parsed JSON body of a link-insertion request; absent fields are
`none`. -/
structure NewLinkData where
  title : Option String
  url : Option String
  description : Option String
  categoryId : Option String
  deriving DecidableEq

/-- The keyword list of the auto-categorisation fallback. -/
def keywords : List String := ["收集", "未分类", "inbox", "temp", "later"]

/-- Embedding of step 3 of the link-insertion handler (lines 129 to 170 of
`src/functions/api/link.ts`): the target category id and name.  Step 3a
uses the explicit `categoryId` when truthy and present among the stored
categories; step 3b otherwise falls back to the first keyword match, then
the category with id common, then the first category, and finally the
default pair when no categories exist. -/
def determineCategory (cats : List Category) (reqCatId : Option String) :
    String × String :=
  let explicit : Option Category :=
    match reqCatId with
    | some cid => if cid == "" then none else cats.find? (fun c => c.id == cid)
    | none => none
  match explicit with
  | some c => (c.id, c.name)
  | none =>
    match cats with
    | [] => ("common", "默认")
    | c0 :: _ =>
      match cats.find? (fun c => keywords.any (fun k => strContains (strLower c.name) k)) with
      | some m => (m.id, m.name)
      | none =>
        match cats.find? (fun c => c.id == "common") with
        | some c => ("common", c.name)
        | none => (c0.id, c0.name)

/-- Category-fallback selection as the specification words it: the first
stored category whose lowercased name contains one of the keywords; if
none matches, the category with id common if it exists, otherwise the
first category in the list; if the category list is empty, category id
common with reported name 默认. -/
def determineCategorySpec (cats : List Category) : String × String :=
  match cats.find? (fun c => keywords.any (fun k => strContains (strLower c.name) k)) with
  | some m => (m.id, m.name)
  | none =>
    match cats.find? (fun c => c.id == "common") with
    | some c => ("common", c.name)
    | none =>
      match cats with
      | c0 :: _ => (c0.id, c0.name)
      | [] => ("common", "默认")

/-- Response bodies produced by the link-insertion handler. -/
inductive LinkRespBody where
  /-- 401 `{ error: Unauthorized }` -/
  | unauthorized
  /-- 400 `{ error: Missing title or url }` -/
  | missingTitleUrl
  /-- 200 `{ success: true, link, categoryName }` -/
  | ok (link : LinkRec) (categoryName : String)
  /-- 500 response from the catch block when the store write raises -/
  | putError
  deriving DecidableEq

/-- Result of one link-insertion invocation: status, body, and the store
writes performed (key and written document). -/
structure LinkResult where
  status : Nat
  body : LinkRespBody
  writes : List (String × AppData)
  deriving DecidableEq

/-- Embedding of `onRequestPost` of `src/functions/api/link.ts` (lines 92
to 206; the second and third handler variants in that file have the same
body).  `stored` is the parsed `app_data` document (or `none` when
missing), `now` is `Date.now()`, and `putRaises` says whether the store
write raises (never, for the third variant whose `putKVValue` swallows
errors; a fetch failure for the first two variants, in which case the
catch block returns 500). -/
def onRequestPost (serverPassword provided : Option String)
    (stored : Option AppData) (now : Int) (putRaises : Bool)
    (b : NewLinkData) : LinkResult :=
  if ¬ truthy serverPassword ∨ ¬ strictEqOpt provided serverPassword then
    ⟨401, .unauthorized, []⟩
  else if ¬ truthy b.title ∨ ¬ truthy b.url then
    ⟨400, .missingTitleUrl, []⟩
  else
    let currentData := stored.getD ⟨[], []⟩
    let target := determineCategory currentData.categories b.categoryId
    let newLink : LinkRec :=
      { id := toString now
        title := b.title.getD ""
        url := b.url.getD ""
        description := b.description.getD ""
        categoryId := target.1
        createdAt := now
        pinned := false
        icon := none }
    let newData : AppData := ⟨newLink :: currentData.links, currentData.categories⟩
    if putRaises then ⟨500, .putError, [("app_data", newData)]⟩
    else ⟨200, .ok newLink target.2, [("app_data", newData)]⟩

end Link

end CloudNav

open CloudNav

/-- C4: no variant of the key-value client implements real cryptographic
signing: for every method, url and timestamp argument, `generateSignature`
returns exactly the raw API key string, independent of its inputs.  (The
bound-binding client of `src/storage.ts` has no signing method at all; the
two remote clients carry the identical placeholder embedded by
`RemoteClient.generateSignature`.) -/
theorem c4_signature_placeholder (apiKey m1 u1 m2 u2 : String) (t1 t2 : Int) :
    RemoteClient.generateSignature apiKey m1 u1 t1 = apiKey ∧
    RemoteClient.generateSignature apiKey m1 u1 t1 =
      RemoteClient.generateSignature apiKey m2 u2 t2 :=
  ⟨rfl, rfl⟩

/-- C7: in the bound-binding variant (`src/storage.ts`), a favicon-save
request hands the 30-day `expirationTtl` (2592000 seconds) to the put
wrapper, but the wrapper invokes the underlying `kv.put(key, value)`
without the options, so the call that reaches the store carries no TTL:
the pass-through the claim (and the source comment about a 30-day expiry)
describes does not happen. -/
theorem c7_ttl_dropped :
    (Storage.onRequestPost (some "pw") none 1000 false
        ⟨false, some "favicon", some "example.com", some "icondata", "", ""⟩).puts =
      [⟨"favicon:example.com", "icondata", some (30 * 24 * 60 * 60)⟩] ∧
    Storage.boundUnderlying true
        (Storage.onRequestPost (some "pw") none 1000 false
          ⟨false, some "favicon", some "example.com", some "icondata", "", ""⟩).puts =
      [⟨"favicon:example.com", "icondata", none⟩] := by
  decide

/-- C3: when the requested categoryId matches no stored category, the
assigned category is determined by the keyword fallback: the first stored
category whose lowercased name contains one of the keywords 收集, 未分类,
inbox, temp, later; if none matches, the category with id common if it
exists, otherwise the first category; and for an empty category list, id
common with reported name 默认 — that is, the handler computation agrees
with the specification-worded selection. -/
theorem c3_category_fallback (cats : List Link.Category) (reqCatId : Option String)
    (h : ∀ c ∈ cats, some c.id ≠ reqCatId) :
    Link.determineCategory cats reqCatId = Link.determineCategorySpec cats := by
  cases hr : reqCatId with
  | none =>
    cases cats <;> simp [Link.determineCategory, Link.determineCategorySpec]
  | some cid =>
    have hfind : cats.find? (fun c => c.id == cid) = none := by
      refine List.find?_eq_none.mpr (fun c hcmem hbeq => ?_)
      exact h c hcmem (by simp [beq_iff_eq.mp hbeq, hr])
    by_cases hc : cid == "" <;>
      cases cats <;>
        simp [Link.determineCategory, Link.determineCategorySpec, hc, hfind]

/-- Witness for C3 at a concrete category list and request. -/
theorem c3_category_fallback_witness :
    (∀ c ∈ [Link.Category.mk "a" "My Inbox", Link.Category.mk "common" "Common"],
        some c.id ≠ some "zzz") ∧
    Link.determineCategory
        [Link.Category.mk "a" "My Inbox", Link.Category.mk "common" "Common"]
        (some "zzz") =
      Link.determineCategorySpec
        [Link.Category.mk "a" "My Inbox", Link.Category.mk "common" "Common"] :=
  ⟨by decide, c3_category_fallback _ _ (by decide)⟩

/-- C1 counterexample: the claim fails on the favicon-save branch.  With
PASSWORD set to secret and the `x-auth-password` header absent, a POST
with `saveConfig = favicon` and both fields present performs the KV write
and returns 200, not 401 with no write as the claim states. -/
theorem c1_counterexample :
    truthy (some "secret") = true ∧
    strictEqOpt none (some "secret") = false ∧
    Storage.onRequestPost (some "secret") none 1000 false
        ⟨false, some "favicon", some "example.com", some "icondata", "", ""⟩ =
      ⟨⟨200, .success⟩, [⟨"favicon:example.com", "icondata", some 2592000⟩]⟩ := by
  decide

/-- C1 amended: for every POST with a parseable JSON body, when PASSWORD
is set and the `x-auth-password` header is absent or differs from it,
every mutating branch except favicon saving — auth-only, search config,
AI config, website config, app data, and link insertion — performs no KV
write and returns status 401; the favicon branch alone proceeds without
the password check. -/
theorem c1_auth_gate_amended (sv pw : Option String)
    (hsv : truthy sv = true) (hpw : strictEqOpt pw sv = false) :
    (∀ (now : Int) (pr : Bool) (b : Storage.PostBody),
      b.saveConfig ≠ some "favicon" →
      Storage.onRequestPost sv pw now pr b = ⟨⟨401, .unauthorized⟩, []⟩) ∧
    (∀ (stored : Option Link.AppData) (now : Int) (pr : Bool)
        (nb : Link.NewLinkData),
      Link.onRequestPost sv pw stored now pr nb = ⟨401, .unauthorized, []⟩) := by
  constructor
  · intro now pr b hb
    by_cases ha : b.authOnly <;>
      simp [Storage.onRequestPost, hsv, hpw, ha, hb]
  · intro stored now pr nb
    simp [Link.onRequestPost, hpw]

/-- Witness for C1 amended: PASSWORD is pw, header absent, an app-data
save and a link insertion both yield 401 with no writes. -/
theorem c1_auth_gate_amended_witness :
    Storage.onRequestPost (some "pw") none 1 false ⟨false, none, none, none, "", "X"⟩ =
      ⟨⟨401, .unauthorized⟩, []⟩ ∧
    Link.onRequestPost (some "pw") none none 1 false ⟨some "T", some "U", none, none⟩ =
      ⟨401, .unauthorized, []⟩ :=
  ⟨(c1_auth_gate_amended (some "pw") none (by decide) (by decide)).1 1 false _
      (by decide),
   (c1_auth_gate_amended (some "pw") none (by decide) (by decide)).2 none 1 false _⟩

/-- C5: link insertion is a full read-modify-write of the whole app_data
document: for every successful insertion (password accepted, title and url
present, write not raising), the only KV write is to the app_data key, the
written categories are exactly the categories that were read, and the
written links are the new link prepended to the stored links. -/
theorem c5_read_modify_write (sv pw : Option String)
    (stored : Option Link.AppData) (now : Int) (b : Link.NewLinkData)
    (hsv : truthy sv = true) (hpw : strictEqOpt pw sv = true)
    (ht : truthy b.title = true) (hu : truthy b.url = true) :
    (Link.onRequestPost sv pw stored now false b).status = 200 ∧
    (Link.onRequestPost sv pw stored now false b).writes =
      [("app_data",
        ⟨{ id := toString now, title := b.title.getD "", url := b.url.getD "",
           description := b.description.getD "",
           categoryId := (Link.determineCategory
             (stored.getD ⟨[], []⟩).categories b.categoryId).1,
           createdAt := now, pinned := false, icon := none } ::
            (stored.getD ⟨[], []⟩).links,
         (stored.getD ⟨[], []⟩).categories⟩)] := by
  simp [Link.onRequestPost, hsv, hpw, ht, hu]

/-- Witness for C5 at a concrete stored document and request. -/
theorem c5_read_modify_write_witness :
    (Link.onRequestPost (some "pw") (some "pw")
        (some ⟨[⟨"old", "t", "u", "", "c1", 1, false, none⟩], [⟨"c1", "Tools"⟩]⟩)
        42 false ⟨some "T", some "U", none, some "c1"⟩).writes =
      [("app_data",
        ⟨[⟨"42", "T", "U", "", "c1", 42, false, none⟩,
          ⟨"old", "t", "u", "", "c1", 1, false, none⟩],
         [⟨"c1", "Tools"⟩]⟩)] :=
  (c5_read_modify_write (some "pw") (some "pw")
      (some ⟨[⟨"old", "t", "u", "", "c1", 1, false, none⟩], [⟨"c1", "Tools"⟩]⟩)
      42 ⟨some "T", some "U", none, some "c1"⟩
      (by decide) (by decide) (by decide) (by decide)).2

/-- C6: every link created by the link-insertion handler has the shape
id = the current millisecond time rendered as a decimal string, createdAt
= that same timestamp, pinned = false, icon = undefined, title and url
from the request body, and description defaulting to the empty string when
absent. -/
theorem c6_link_shape (sv pw : Option String) (stored : Option Link.AppData)
    (now : Int) (b : Link.NewLinkData)
    (hsv : truthy sv = true) (hpw : strictEqOpt pw sv = true)
    (ht : truthy b.title = true) (hu : truthy b.url = true) :
    (Link.onRequestPost sv pw stored now false b).body =
      .ok
        { id := toString now, title := b.title.getD "", url := b.url.getD "",
          description := b.description.getD "",
          categoryId := (Link.determineCategory
            (stored.getD ⟨[], []⟩).categories b.categoryId).1,
          createdAt := now, pinned := false, icon := none }
        (Link.determineCategory (stored.getD ⟨[], []⟩).categories b.categoryId).2 := by
  simp [Link.onRequestPost, hsv, hpw, ht, hu]

/-- Witness for C6: a link inserted at time 42 with no description. -/
theorem c6_link_shape_witness :
    (Link.onRequestPost (some "pw") (some "pw")
        (some ⟨[], [⟨"c1", "Tools"⟩]⟩) 42 false
        ⟨some "T", some "U", none, some "c1"⟩).body =
      .ok ⟨"42", "T", "U", "", "c1", 42, false, none⟩ "Tools" := by
  have := c6_link_shape (some "pw") (some "pw") (some ⟨[], [⟨"c1", "Tools"⟩]⟩)
    42 ⟨some "T", some "U", none, some "c1"⟩
    (by decide) (by decide) (by decide) (by decide)
  rw [this]
  decide

/-- C2 counterexample: the app-data read is not gated for every GET.  With
PASSWORD set to secret, a GET with no query parameters and no password
header returns the stored app_data document with status 200, not 401 as
the claim states. -/
theorem c2_counterexample :
    truthy (some "secret") = true ∧
    Storage.onRequestGet
        (fun k => if k == "app_data" then some "DATA" else none)
        (fun _ => none) (some "secret") 1000 false ⟨none, none, none, none⟩ =
      ⟨⟨200, .blob "DATA"⟩, []⟩ := by
  decide

/-- C2 amended: the app-data read is password-gated only on GET requests
with getConfig = true: there the handler returns 401 with no write
whenever the header is absent, empty, or differs from PASSWORD; but a GET
whose getConfig parameter is absent or any other unrecognised value (and
checkAuth is not true) returns the stored app_data document with status
200 regardless of the password header. -/
theorem c2_appdata_gate_amended (kv : String → Option String)
    (pf : String → Option Int) (sv : Option String) (now : Int) (pr : Bool)
    (req : Storage.GetRequest) (hca : req.checkAuth ≠ some "true") :
    (req.getConfig = some "true" →
      ¬ (truthy req.password = true ∧ strictEqOpt req.password sv = true) →
      Storage.onRequestGet kv pf sv now pr req = ⟨⟨401, .errWrongPassword⟩, []⟩) ∧
    (req.getConfig ≠ some "true" → req.getConfig ≠ some "ai" →
      req.getConfig ≠ some "search" → req.getConfig ≠ some "website" →
      req.getConfig ≠ some "favicon" →
      ∀ d, kv "app_data" = some d → d ≠ "" →
      Storage.onRequestGet kv pf sv now pr req = ⟨⟨200, .blob d⟩, []⟩) := by
  constructor
  · intro hgc hbad
    have h1 : ¬ truthy req.password = true ∨ ¬ strictEqOpt req.password sv = true := by
      tauto
    rcases h1 with h1 | h1 <;> simp [Storage.onRequestGet, hca, hgc, h1]
  · intro h1 h2 h3 h4 h5 d hd hdne
    simp [Storage.onRequestGet, hca, h1, h2, h3, h4, h5, hd, hdne]

/-- Witness for C2 amended: wrong-password 401 on a getConfig = true
request, and an ungated 200 on a parameterless GET. -/
theorem c2_appdata_gate_amended_witness :
    Storage.onRequestGet (fun k => if k == "app_data" then some "DATA" else none)
        (fun _ => none) (some "pw") 1 false ⟨none, some "true", none, none⟩ =
      ⟨⟨401, .errWrongPassword⟩, []⟩ ∧
    Storage.onRequestGet (fun k => if k == "app_data" then some "DATA" else none)
        (fun _ => none) (some "pw") 1 false ⟨none, none, none, none⟩ =
      ⟨⟨200, .blob "DATA"⟩, []⟩ :=
  ⟨(c2_appdata_gate_amended
      (fun k => if k == "app_data" then some "DATA" else none)
      (fun _ => none) (some "pw") 1 false ⟨none, some "true", none, none⟩
      (by decide)).1 rfl (by decide),
   (c2_appdata_gate_amended
      (fun k => if k == "app_data" then some "DATA" else none)
      (fun _ => none) (some "pw") 1 false ⟨none, none, none, none⟩
      (by decide)).2 (by decide) (by decide) (by decide) (by decide) (by decide)
      "DATA" (by decide) (by decide)⟩

/-- C8 counterexample: the claim fails for a configured passwordExpiryDays
of 0.  The source coerces the falsy 0 to the default 7
(`websiteConfig.passwordExpiryDays || 7`), so with a stored value of 0 and
a last_auth_time of 0, an authenticated app-data GET at a time beyond
seven days returns 401, while the claim (configured value not greater
than 0) predicts that the data is returned. -/
theorem c8_counterexample :
    Storage.effectiveExpiryDays
        (fun s => if s == "\x7b\"passwordExpiryDays\":0\x7d" then some 0 else none)
        (some "\x7b\"passwordExpiryDays\":0\x7d") = 7 ∧
    Storage.onRequestGet
        (fun k => if k == "website_config" then some "\x7b\"passwordExpiryDays\":0\x7d"
          else if k == "last_auth_time" then some "0"
          else if k == "app_data" then some "DATA" else none)
        (fun s => if s == "\x7b\"passwordExpiryDays\":0\x7d" then some 0 else none)
        (some "pw") 700000000000 false ⟨none, some "true", none, some "pw"⟩ =
      ⟨⟨401, .errExpired⟩, []⟩ := by
  decide

/-- C8 amended: on an authenticated app-data GET, the expiry comparison
uses the effective expiry days — the configured passwordExpiryDays when
nonzero, and 7 when the field is 0, missing, or the blob is absent: when
the effective days are positive, a parseable last_auth_time exists and the
current time minus it exceeds days times 86400000 ms, the handler returns
401 without the data; otherwise it overwrites last_auth_time with the
current time and (when the write does not raise and data is stored)
returns the data. -/
theorem c8_expiry_amended (kv : String → Option String) (pf : String → Option Int)
    (sv : Option String) (now : Int) (pr : Bool) (req : Storage.GetRequest)
    (hca : req.checkAuth ≠ some "true") (hgc : req.getConfig = some "true")
    (hp1 : truthy req.password = true)
    (hp2 : strictEqOpt req.password sv = true) :
    (∀ l t, kv "last_auth_time" = some l → l ≠ "" → parseIntStr l = some t →
      0 < Storage.effectiveExpiryDays pf (kv "website_config") →
      Storage.effectiveExpiryDays pf (kv "website_config") * (24 * 60 * 60 * 1000)
          < now - t →
      Storage.onRequestGet kv pf sv now pr req = ⟨⟨401, .errExpired⟩, []⟩) ∧
    (Storage.expiryCheckFires pf kv now = false →
      (Storage.onRequestGet kv pf sv now pr req).puts =
        [⟨"last_auth_time", toString now, none⟩] ∧
      (pr = false → ∀ d, kv "app_data" = some d → d ≠ "" →
        (Storage.onRequestGet kv pf sv now pr req).resp = ⟨200, .blob d⟩)) := by
  constructor
  · intro l t hl hlne hparse hdays hgt
    have hgt2 : Storage.effectiveExpiryDays pf (kv "website_config") * 86400000
        < now - t := by
      norm_num at hgt
      exact hgt
    have hfires : Storage.expiryCheckFires pf kv now = true := by
      simp [Storage.expiryCheckFires, hl, hlne, hparse, hdays, hgt2]
    simp [Storage.onRequestGet, hca, hgc, hp1, hp2, hfires]
  · intro hfires
    constructor
    · by_cases hpr : pr = true
      · simp [Storage.onRequestGet, hca, hgc, hp1, hp2, hfires, hpr]
      · cases hd : kv "app_data" with
        | none => simp [Storage.onRequestGet, hca, hgc, hp1, hp2, hfires, hpr, hd]
        | some d =>
          by_cases hde : d = "" <;>
            simp [Storage.onRequestGet, hca, hgc, hp1, hp2, hfires, hpr, hd, hde]
    · intro hpr d hd hdne
      simp [Storage.onRequestGet, hca, hgc, hp1, hp2, hfires, hpr, hd, hdne]

/-- Witness for C8 amended: a fresh last_auth_time within the seven-day
default window leads to the timestamp being overwritten and the data
returned. -/
theorem c8_expiry_amended_witness :
    (Storage.onRequestGet
        (fun k => if k == "last_auth_time" then some "3"
          else if k == "app_data" then some "DATA" else none)
        (fun _ => none) (some "pw") 9 false ⟨none, some "true", none, some "pw"⟩).puts =
      [⟨"last_auth_time", "9", none⟩] ∧
    (Storage.onRequestGet
        (fun k => if k == "last_auth_time" then some "3"
          else if k == "app_data" then some "DATA" else none)
        (fun _ => none) (some "pw") 9 false ⟨none, some "true", none, some "pw"⟩).resp =
      ⟨200, .blob "DATA"⟩ := by
  have h := (c8_expiry_amended
    (fun k => if k == "last_auth_time" then some "3"
      else if k == "app_data" then some "DATA" else none)
    (fun _ => none) (some "pw") 9 false ⟨none, some "true", none, some "pw"⟩
    (by decide) rfl (by decide) (by decide)).2 (by decide)
  exact ⟨h.1, h.2 rfl "DATA" (by decide) (by decide)⟩

/-- The put wrapper of the bound client never raises: it returns early on
a missing binding and catches every underlying error. -/
theorem boundPutRaises_eq_false (a u : Bool) :
    Storage.boundPutRaises a u = false := by
  unfold Storage.boundPutRaises
  split_ifs <;> rfl

/-- With the binding absent, no wrapper put reaches the underlying
store. -/
theorem boundUnderlying_nil_of_unavailable (ps : List Storage.PutCall) :
    Storage.boundUnderlying false ps = [] := by
  simp [Storage.boundUnderlying, Storage.boundLowerPut]

/-- C9: in the bound-binding variant, KV put failures are swallowed: for
every POST request that nominally succeeds, the put wrapper returns
normally even when the underlying put raises or the binding is absent,
the handler still responds 200 with a success body, and with the binding
absent the write never reaches the store — so the client cannot
distinguish a persisted write from a lost one. -/
theorem c9_put_failures_swallowed (avail und : Bool) (sv pw : Option String)
    (now : Int) (b : Storage.PostBody)
    (h : (Storage.onRequestPost sv pw now false b).resp = ⟨200, .success⟩) :
    Storage.boundPutRaises avail und = false ∧
    (Storage.onRequestPost sv pw now (Storage.boundPutRaises avail und) b).resp =
      ⟨200, .success⟩ ∧
    (avail = false →
      Storage.boundUnderlying avail
        (Storage.onRequestPost sv pw now
          (Storage.boundPutRaises avail und) b).puts = []) := by
  refine ⟨boundPutRaises_eq_false avail und, ?_, ?_⟩
  · rw [boundPutRaises_eq_false]
    exact h
  · intro ha
    subst ha
    exact boundUnderlying_nil_of_unavailable _

/-- Witness for C9: an authorized app-data save with the binding absent
and the underlying put raising still answers 200 success. -/
theorem c9_put_failures_swallowed_witness :
    (Storage.onRequestPost (some "pw") (some "pw") 1
        (Storage.boundPutRaises false true)
        ⟨false, none, none, none, "", "S"⟩).resp = ⟨200, .success⟩ :=
  (c9_put_failures_swallowed false true (some "pw") (some "pw") 1
    ⟨false, none, none, none, "", "S"⟩ (by decide)).2.1

/-- C10: config blobs are readable without authentication: a GET with
getConfig equal to ai, search or website produces a response that does not
depend on the x-auth-password header, and (when checkAuth is not true) is
exactly the stored blob or its literal default with status 200 and no
writes, even when PASSWORD is set. -/
theorem c10_config_no_auth (kv : String → Option String)
    (pf : String → Option Int) (sv : Option String) (now : Int) (pr : Bool)
    (ca dom pw1 pw2 : Option String) :
    (Storage.onRequestGet kv pf sv now pr ⟨ca, some "ai", dom, pw1⟩ =
        Storage.onRequestGet kv pf sv now pr ⟨ca, some "ai", dom, pw2⟩ ∧
      Storage.onRequestGet kv pf sv now pr ⟨ca, some "search", dom, pw1⟩ =
        Storage.onRequestGet kv pf sv now pr ⟨ca, some "search", dom, pw2⟩ ∧
      Storage.onRequestGet kv pf sv now pr ⟨ca, some "website", dom, pw1⟩ =
        Storage.onRequestGet kv pf sv now pr ⟨ca, some "website", dom, pw2⟩) ∧
    (ca ≠ some "true" →
      Storage.onRequestGet kv pf sv now pr ⟨ca, some "ai", dom, pw1⟩ =
        ⟨⟨200, .blob (orDefault (kv "ai_config") Storage.emptyObj)⟩, []⟩ ∧
      Storage.onRequestGet kv pf sv now pr ⟨ca, some "search", dom, pw1⟩ =
        ⟨⟨200, .blob (orDefault (kv "search_config") Storage.emptyObj)⟩, []⟩ ∧
      Storage.onRequestGet kv pf sv now pr ⟨ca, some "website", dom, pw1⟩ =
        ⟨⟨200, .blob (orDefault (kv "website_config") Storage.websiteDefault)⟩, []⟩) := by
  constructor
  · by_cases hca : ca = some "true" <;> simp [Storage.onRequestGet, hca]
  · intro hca
    simp [Storage.onRequestGet, hca]

/-- Witness for C10: with PASSWORD set and nothing stored, an AI-config
GET without the header and one with the right header coincide and return
the default blob. -/
theorem c10_config_no_auth_witness :
    Storage.onRequestGet (fun _ => none) (fun _ => none) (some "pw") 1 false
        ⟨none, some "ai", none, none⟩ =
      Storage.onRequestGet (fun _ => none) (fun _ => none) (some "pw") 1 false
        ⟨none, some "ai", none, some "pw"⟩ ∧
    Storage.onRequestGet (fun _ => none) (fun _ => none) (some "pw") 1 false
        ⟨none, some "ai", none, none⟩ =
      ⟨⟨200, .blob Storage.emptyObj⟩, []⟩ :=
  ⟨(c10_config_no_auth (fun _ => none) (fun _ => none) (some "pw") 1 false
      none none none (some "pw")).1.1,
   ((c10_config_no_auth (fun _ => none) (fun _ => none) (some "pw") 1 false
      none none none (some "pw")).2 (by decide)).1⟩
